import Mathlib

/-!
Shallow embedding of the wealth-atlas-sync Lambda handlers
(src/src/handler.js).  The source file contains two handler variants that
the claims reference:

* variant 1 (CommonJS, lines 1-268): `createResponse`, `validatePayload`
  (strict crypto-meta validation), `createDataset`, `getDataset`,
  `updateDataset`, `deleteDataset`, `main`;
* variant 2 (TypeScript, lines 269-474): `response`, `handler`,
  `createData`, `getData`, `updateData`, `deleteData` (lax validation,
  `meta` optional).

The DynamoDB backend is modelled as an association list keyed by `keyId`;
its conditional put/update/delete follow the documented DynamoDB semantics
(also mirrored by the mock bundled with the repository in test-local.js): the
condition failure surfaces as an error named
`ConditionalCheckFailedException`, any other backend failure is modelled
by an injected `fault` error that the `send` call throws instead of
executing.  JavaScript exceptions are modelled with `Except JsError`;
machine numbers appearing in the handlers (versions, iteration counts,
status codes) are modelled as `Nat`/`Int` (no overflow is reachable at
the magnitudes involved; JS numbers are exact integers far beyond them).
-/

/-- JSON-ish JavaScript values (the subset flowing through the handlers:
`JSON.parse` results, `meta` objects, response bodies).  `undefined` is
represented by `Option.none` at use sites, never inside `Json`.
JS `NaN` is not representable in the `Int` model; no handler produces it. -/
inductive Json where
  | null
  | bool (b : Bool)
  | num (n : Int)
  | str (s : String)
  | arr (elems : List Json)
  | obj (fields : List (String × Json))

/-- First binding of a key in the field list of a JS object literal. -/
def lookupField : List (String × Json) → String → Option Json
  | [], _ => none
  | (k0, v) :: rest, k => if k0 = k then some v else lookupField rest k

/-- JS property access `j.k` on a non-nullish value: defined fields of
objects; `undefined` (`none`) on every other value for the keys the
handlers read (strings/arrays/numbers have no `payload`, `meta`, `enc`,
... properties). -/
def Json.get (j : Json) (k : String) : Option Json :=
  match j with
  | .obj fields => lookupField fields k
  | _ => none

/-- JavaScript truthiness of a defined value.  (`NaN`, the one falsy
number besides `0`, has no representation here.) -/
def Json.truthy : Json → Bool
  | .null => false
  | .bool b => b
  | .num n => n != 0
  | .str s => s ≠ ""
  | .arr _ => true
  | .obj _ => true

/-- Truthiness of a possibly-`undefined` value (`undefined` is falsy). -/
def jsTruthy : Option Json → Bool
  | none => false
  | some j => j.truthy

/-- JS `typeof v` being the string type. -/
def jsIsString : Option Json → Bool
  | some (.str _) => true
  | _ => false

/-- JS `typeof v` being the number type. -/
def jsIsNumber : Option Json → Bool
  | some (.num _) => true
  | _ => false

/-- JS `typeof v` being the object type (true for `null`, arrays and objects). -/
def jsIsObjectTypeof : Option Json → Bool
  | some .null => true
  | some (.obj _) => true
  | some (.arr _) => true
  | _ => false

/-- Numeric value for comparisons (`iterations < 100000`); only consulted
after a numeric typeof check has succeeded. -/
def jsNumVal : Option Json → Int
  | some (.num n) => n
  | _ => 0

/-- A thrown JavaScript error: `name` drives the
`ConditionalCheckFailedException` tests, `message` is what the catch
blocks echo (an absent/empty message is falsy for `error.message || ...`). -/
structure JsError where
  name : String
  message : String
deriving DecidableEq, Repr

/-- The conditional-failure signal of the backend (name used by the AWS SDK
and by the mock in test-local.js). -/
def condCheckFailed (message : String) : JsError :=
  ⟨"ConditionalCheckFailedException", message⟩

/-- `error.message || fallback` as the catch blocks compute it. -/
def messageOr (e : JsError) (fallback : String) : String :=
  if e.message = "" then fallback else e.message

/-- One stored dataset record (DynamoDB item minus its `keyId` key
attribute). -/
structure Record where
  version : Nat
  payload : Json
  meta : Json
  updatedAt : String

/-- The DynamoDB table: association list from `keyId` to the record. -/
def Store := List (String × Record)

/-- Lookup by key (DynamoDB `GetCommand`). -/
def Store.find : Store → String → Option Record
  | [], _ => none
  | (k0, r) :: rest, k => if k0 = k then some r else Store.find rest k

/-- Replace the record stored under an existing key. -/
def Store.set : Store → String → Record → Store
  | [], _, _ => []
  | (k0, r0) :: rest, k, r =>
      if k0 = k then (k, r) :: rest else (k0, r0) :: Store.set rest k r

/-- Remove the record stored under a key. -/
def Store.erase : Store → String → Store
  | [], _ => []
  | (k0, r0) :: rest, k =>
      if k0 = k then rest else (k0, r0) :: Store.erase rest k

/-- A backend `send`: `fault = some e` means the call throws `e` instead
of executing (an unexpected backend failure); `fault = none` means the
call executes the DynamoDB semantics `op`. -/
def dbSend {α : Type} (fault : Option JsError) (op : Except JsError α) :
    Except JsError α :=
  match fault with
  | some e => .error e
  | none => op

/-- `PutCommand` with `ConditionExpression: attribute_not_exists(keyId)`:
fails with the conditional signal when the key already exists, otherwise
inserts the item atomically. -/
def condPut (s : Store) (k : String) (r : Record) :
    Except JsError Store :=
  match Store.find s k with
  | some _ => .error (condCheckFailed "The conditional request failed")
  | none => .ok ((k, r) :: s)

/-- `UpdateCommand` with `SET version = version + :inc, payload = :payload,
meta = :meta, updatedAt = :updatedAt`, `ConditionExpression:
attribute_exists(keyId)`, `ReturnValues: ALL_NEW`: fails with the
conditional signal when the key is absent, otherwise increments the
version, replaces the other attributes, and returns the post-update
record. -/
def condUpdate (s : Store) (k : String) (p m : Json) (t : String) :
    Except JsError (Record × Store) :=
  match Store.find s k with
  | none => .error (condCheckFailed "The conditional request failed")
  | some r =>
      let r2 : Record := ⟨r.version + 1, p, m, t⟩
      .ok (r2, Store.set s k r2)

/-- `DeleteCommand` with `ConditionExpression: attribute_exists(keyId)`. -/
def condDelete (s : Store) (k : String) : Except JsError Store :=
  match Store.find s k with
  | none => .error (condCheckFailed "The conditional request failed")
  | some _ => .ok (Store.erase s k)

/-- The raw `event.body` as received: absent (`null`/`undefined`/empty), a
string that is not valid JSON (carrying the JSON.parse error message), or
a string whose parse result is `j`. -/
inductive BodyVal where
  | absent
  | malformed (message : String)
  | parsed (j : Json)

/-- Variant 1: `JSON.parse(event.body)`.  `JSON.parse(null)` coerces to
the string "null" and yields the JSON value `null`; a malformed body
throws a SyntaxError. -/
def jsonParseV1 : BodyVal → Except JsError Json
  | .absent => .ok .null
  | .malformed m => .error ⟨"SyntaxError", m⟩
  | .parsed j => .ok j

/-- Variant 2: `JSON.parse(event.body || "{}")`: an absent body falls back
to "{}", which parses to the empty object. -/
def jsonParseV2 : BodyVal → Except JsError Json
  | .absent => .ok (.obj [])
  | .malformed m => .error ⟨"SyntaxError", m⟩
  | .parsed j => .ok j

/-- Destructuring / property access `j.k` that throws a TypeError when
`j` is `null` (e.g. `const { payload, meta } = JSON.parse("null")`). -/
def jsMember (j : Json) (k : String) : Except JsError (Option Json) :=
  match j with
  | .null =>
      .error ⟨"TypeError",
        "Cannot destructure property " ++ k ++ " of null"⟩
  | _ => .ok (j.get k)

/-- An API Gateway proxy event, restricted to the fields the handlers
read.  `pathParameters`: `none` = the object itself is absent;
`some none` = present but without a `keyId`; `some (some k)` = `keyId`
is the string `k`. -/
structure Event where
  httpMethod : String
  resource : String
  pathParameters : Option (Option String)
  body : BodyVal

/-- `event.pathParameters?.keyId` (variant 2, never throws). -/
def Event.keyIdOpt (e : Event) : Option String :=
  match e.pathParameters with
  | none => none
  | some k => k

/-- `const { keyId } = event.pathParameters` (variant 1: throws a
TypeError when `pathParameters` is null/undefined). -/
def Event.keyIdDestructure (e : Event) : Except JsError (Option String) :=
  match e.pathParameters with
  | none =>
      .error ⟨"TypeError",
        "Cannot destructure property keyId of undefined"⟩
  | some k => .ok k

/-- Truthiness of a possibly-undefined string (`!keyId`). -/
def strTruthy : Option String → Bool
  | none => false
  | some s => s ≠ ""

/-- An HTTP response as the Lambda returns it; `body` is kept as the
JSON value passed to `JSON.stringify`. -/
structure Resp where
  statusCode : Nat
  headers : List (String × String)
  body : Json

/-- The fixed CORS/content-type header set attached to every response
(identical object in both variants). -/
def CORS_HEADERS : List (String × String) :=
  [("Access-Control-Allow-Origin", "*"),
   ("Access-Control-Allow-Headers",
     "Content-Type,X-Amz-Date,Authorization,X-Api-Key,X-Amz-Security-Token"),
   ("Access-Control-Allow-Methods", "GET,POST,PUT,DELETE,OPTIONS"),
   ("Content-Type", "application/json")]

/-- Variant 1 `createResponse` = variant 2 `response`: wrap a status and
a body object with the fixed headers. -/
def createResponse (statusCode : Nat) (body : Json) : Resp :=
  ⟨statusCode, CORS_HEADERS, body⟩

/-- A one-field `{ error: msg }` body. -/
def errorBody (msg : String) : Json :=
  .obj [("error", .str msg)]

/-- A variant 1 handler body: the try block runs in `Except`, the catch
block turns the error into a response and leaves the store as it was
(the only mutation is the atomic backend call, which either fully
applied inside `attempt` or did not happen). -/
def catchV1 (attempt : Except JsError (Resp × Store)) (s : Store)
    (handle : JsError → Resp) : Resp × Store :=
  match attempt with
  | .ok r => r
  | .error e => (handle e, s)

/-- The variant 2 subhandler catch pattern: map the conditional-failure
signal to a fixed response, rethrow anything else. -/
def catchCCF (attempt : Except JsError (Resp × Store)) (s : Store)
    (resp : Resp) : Except JsError (Resp × Store) :=
  match attempt with
  | .ok r => .ok r
  | .error e =>
      if e.name = "ConditionalCheckFailedException" then .ok (resp, s)
      else .error e

/-- JS strict equality `v === lit` against a string literal (used by the
`enc`/`kdf` checks). -/
def jsStrictEqStr : Option Json → String → Bool
  | some (.str s), t => s = t
  | _, _ => false

/-- Variant 1 `validatePayload` (handler.js lines 35-63): requires a
truthy string `payload`, a truthy object `meta`, and the crypto-meta
shape; throws an `Error` naming the first violated field. -/
def validatePayload (payload meta : Option Json) : Except JsError Unit :=
  if !jsTruthy payload || !jsIsString payload then
    .error ⟨"Error", "payload is required and must be a string"⟩
  else if !jsTruthy meta || !jsIsObjectTypeof meta then
    .error ⟨"Error", "meta is required and must be an object"⟩
  else
    let m := meta.getD .null
    let enc := m.get "enc"
    let kdf := m.get "kdf"
    let iterations := m.get "iterations"
    let salt := m.get "salt"
    let iv := m.get "iv"
    let schemaVersion := m.get "schemaVersion"
    if !jsStrictEqStr enc "AES-GCM" then
      .error ⟨"Error", "meta.enc must be \"AES-GCM\""⟩
    else if !jsStrictEqStr kdf "PBKDF2-SHA256" then
      .error ⟨"Error", "meta.kdf must be \"PBKDF2-SHA256\""⟩
    else if !jsTruthy iterations || !jsIsNumber iterations
        || jsNumVal iterations < 100000 then
      .error ⟨"Error", "meta.iterations must be a number >= 100000"⟩
    else if !jsTruthy salt || !jsIsString salt then
      .error ⟨"Error", "meta.salt is required and must be a base64 string"⟩
    else if !jsTruthy iv || !jsIsString iv then
      .error ⟨"Error", "meta.iv is required and must be a base64 string"⟩
    else if !jsTruthy schemaVersion || !jsIsNumber schemaVersion then
      .error ⟨"Error", "meta.schemaVersion is required and must be a number"⟩
    else
      .ok ()

/-- Variant 1 `createDataset` (lines 66-110).  `keyId` is the freshly
generated uuid, `now` the `new Date().toISOString()` value; the whole try
body runs in `Except`, the catch block maps the conditional signal to 409
and everything else to 400 with `error.message`. -/
def createDataset (event : Event) (s : Store) (keyId now : String)
    (fault : Option JsError) : Resp × Store :=
  let attempt : Except JsError (Resp × Store) := do
    let body ← jsonParseV1 event.body
    let payload ← jsMember body "payload"
    let meta ← jsMember body "meta"
    let _ ← validatePayload payload meta
    let item : Record := ⟨1, payload.getD .null, meta.getD .null, now⟩
    let s2 ← dbSend fault (condPut s keyId item)
    pure (createResponse 201 (.obj
      [("keyId", .str keyId), ("version", .num 1),
       ("updatedAt", .str now)]), s2)
  catchV1 attempt s (fun e =>
    if e.name = "ConditionalCheckFailedException" then
      createResponse 409 (errorBody "Dataset already exists")
    else
      createResponse 400 (errorBody (messageOr e "Failed to create dataset")))

/-- Variant 1 `getDataset` (lines 113-145): any thrown error (including a
`pathParameters` destructuring TypeError or a backend fault) becomes a
generic 500; reads never change the store. -/
def getDataset (event : Event) (s : Store) (fault : Option JsError) :
    Resp × Store :=
  let attempt : Except JsError (Resp × Store) := do
    let keyId ← event.keyIdDestructure
    if !strTruthy keyId then
      pure (createResponse 400 (errorBody "keyId is required"), s)
    else do
      let k := keyId.getD ""
      let item ← dbSend fault (.ok (Store.find s k))
      match item with
      | none => pure (createResponse 404 (errorBody "Dataset not found"), s)
      | some r =>
          pure (createResponse 200 (.obj
            [("keyId", .str k), ("version", .num (r.version : Int)),
             ("payload", r.payload), ("meta", r.meta),
             ("updatedAt", .str r.updatedAt)]), s)
  catchV1 attempt s (fun _ =>
    createResponse 500 (errorBody "Failed to retrieve dataset"))

/-- Variant 1 `updateDataset` (lines 148-199): destructures
`pathParameters`, parses the body, checks `keyId`, validates, then issues
the conditional increment; the catch maps the conditional signal to 404
and everything else to 400 with `error.message`. -/
def updateDataset (event : Event) (s : Store) (now : String)
    (fault : Option JsError) : Resp × Store :=
  let attempt : Except JsError (Resp × Store) := do
    let keyId ← event.keyIdDestructure
    let body ← jsonParseV1 event.body
    let payload ← jsMember body "payload"
    let meta ← jsMember body "meta"
    if !strTruthy keyId then
      pure (createResponse 400 (errorBody "keyId is required"), s)
    else do
      let _ ← validatePayload payload meta
      let k := keyId.getD ""
      let res ← dbSend fault
        (condUpdate s k (payload.getD .null) (meta.getD .null) now)
      pure (createResponse 200 (.obj
        [("keyId", .str k), ("version", .num (res.1.version : Int)),
         ("updatedAt", .str res.1.updatedAt)]), res.2)
  catchV1 attempt s (fun e =>
    if e.name = "ConditionalCheckFailedException" then
      createResponse 404 (errorBody "Dataset not found")
    else
      createResponse 400 (errorBody (messageOr e "Failed to update dataset")))

/-- Variant 1 `deleteDataset` (lines 202-233): conditional delete; the
catch maps the conditional signal to 404 and everything else to a
generic 500. -/
def deleteDataset (event : Event) (s : Store) (fault : Option JsError) :
    Resp × Store :=
  let attempt : Except JsError (Resp × Store) := do
    let keyId ← event.keyIdDestructure
    if !strTruthy keyId then
      pure (createResponse 400 (errorBody "keyId is required"), s)
    else do
      let k := keyId.getD ""
      let s2 ← dbSend fault (condDelete s k)
      pure (createResponse 200 (.obj
        [("message", .str "Dataset deleted successfully"),
         ("keyId", .str k)]), s2)
  catchV1 attempt s (fun e =>
    if e.name = "ConditionalCheckFailedException" then
      createResponse 404 (errorBody "Dataset not found")
    else
      createResponse 500 (errorBody "Failed to delete dataset"))

/-- Variant 1 `main` (lines 236-268): OPTIONS short-circuit, then a
switch on `httpMethod` alone (the path plays no role in this variant);
unknown methods get 405.  Its top-level catch is unreachable in the
model because every subhandler already catches internally and reading
fields of the event object cannot throw.  (The source exports this as
`main`; that name is reserved by Lean, hence `mainHandler`.) -/
def mainHandler (event : Event) (s : Store) (keyId now : String)
    (fault : Option JsError) : Resp × Store :=
  if event.httpMethod = "OPTIONS" then
    (createResponse 200 (.obj []), s)
  else if event.httpMethod = "POST" then
    createDataset event s keyId now fault
  else if event.httpMethod = "GET" then
    getDataset event s fault
  else if event.httpMethod = "PUT" then
    updateDataset event s now fault
  else if event.httpMethod = "DELETE" then
    deleteDataset event s fault
  else
    (createResponse 405
      (errorBody ("Method " ++ event.httpMethod ++ " not allowed")), s)

/-- Variant 2 `response` (lines 463-474): same fixed headers as
the `createResponse` of variant 1 (the literal header object in the source is
identical to `CORS_HEADERS`). -/
def response (statusCode : Nat) (body : Json) : Resp :=
  ⟨statusCode, CORS_HEADERS, body⟩

/-- Variant 2 `createData` (lines 318-358): lax validation (`payload`
only needs to be truthy), `meta` stored as `body.meta || null`; the
conditional signal maps to 409, every other error is rethrown to the
top-level `handler` catch. -/
def createData (event : Event) (s : Store) (keyId now : String)
    (fault : Option JsError) : Except JsError (Resp × Store) :=
  let attempt : Except JsError (Resp × Store) := do
    let body ← jsonParseV2 event.body
    let payload ← jsMember body "payload"
    if !jsTruthy payload then
      pure (response 400 (errorBody "payload is required"), s)
    else do
      let meta ← jsMember body "meta"
      let item : Record :=
        ⟨1, payload.getD .null,
         if jsTruthy meta then meta.getD .null else .null, now⟩
      let s2 ← dbSend fault (condPut s keyId item)
      pure (response 201 (.obj
        [("keyId", .str keyId), ("version", .num 1),
         ("updatedAt", .str now)]), s2)
  catchCCF attempt s (response 409 (errorBody "Dataset already exists"))

/-- Variant 2 `getData` (lines 361-386): no try/catch of its own — a
backend fault propagates to the top-level `handler` catch. -/
def getData (event : Event) (s : Store) (fault : Option JsError) :
    Except JsError (Resp × Store) := do
  let keyId := event.keyIdOpt
  if !strTruthy keyId then
    pure (response 400 (errorBody "keyId is required"), s)
  else do
    let k := keyId.getD ""
    let item ← dbSend fault (.ok (Store.find s k))
    match item with
    | none => pure (response 404 (errorBody "Dataset not found"), s)
    | some r =>
        pure (response 200 (.obj
          [("keyId", .str k), ("version", .num (r.version : Int)),
           ("payload", r.payload), ("meta", r.meta),
           ("updatedAt", .str r.updatedAt)]), s)

/-- Variant 2 `updateData` (lines 389-432): the `keyId` check precedes
the try; conditional increment with `ReturnValues: ALL_NEW`; the
conditional signal maps to 404, everything else is rethrown. -/
def updateData (event : Event) (s : Store) (now : String)
    (fault : Option JsError) : Except JsError (Resp × Store) :=
  let keyId := event.keyIdOpt
  if !strTruthy keyId then
    .ok (response 400 (errorBody "keyId is required"), s)
  else
    let k := keyId.getD ""
    let attempt : Except JsError (Resp × Store) := do
      let body ← jsonParseV2 event.body
      let payload ← jsMember body "payload"
      if !jsTruthy payload then
        pure (response 400 (errorBody "payload is required"), s)
      else do
        let meta ← jsMember body "meta"
        let res ← dbSend fault
          (condUpdate s k (payload.getD .null)
            (if jsTruthy meta then meta.getD .null else .null) now)
        pure (response 200 (.obj
          [("keyId", .str k), ("version", .num (res.1.version : Int)),
           ("updatedAt", .str res.1.updatedAt)]), res.2)
    catchCCF attempt s (response 404 (errorBody "Dataset not found"))

/-- Variant 2 `deleteData` (lines 435-461). -/
def deleteData (event : Event) (s : Store) (fault : Option JsError) :
    Except JsError (Resp × Store) :=
  let keyId := event.keyIdOpt
  if !strTruthy keyId then
    .ok (response 400 (errorBody "keyId is required"), s)
  else
    let k := keyId.getD ""
    let attempt : Except JsError (Resp × Store) := do
      let s2 ← dbSend fault (condDelete s k)
      pure (response 200 (.obj
        [("message", .str "Dataset deleted successfully"),
         ("keyId", .str k)]), s2)
    catchCCF attempt s (response 404 (errorBody "Dataset not found"))

/-- The variant 2 top-level catch (lines 311-314): any error escaping a
subhandler becomes a generic 500 with no detail from the error. -/
def catchAll500 (attempt : Except JsError (Resp × Store)) (s : Store) :
    Resp × Store :=
  match attempt with
  | .ok r => r
  | .error _ => (response 500 (errorBody "Internal Server Error"), s)

/-- Variant 2 `handler` (lines 276-315): routes on the
`(httpMethod, resource)` pair through a first-match if-chain; an
unmatched combination gets 400. -/
def handler (event : Event) (s : Store) (keyId now : String)
    (fault : Option JsError) : Resp × Store :=
  catchAll500
    (if event.httpMethod = "OPTIONS" ∧ event.resource = "/data" then
      .ok (response 200 (.obj []), s)
    else if event.httpMethod = "OPTIONS" ∧ event.resource = "/data/{keyId}" then
      .ok (response 200 (.obj []), s)
    else if event.httpMethod = "POST" ∧ event.resource = "/data" then
      createData event s keyId now fault
    else if event.httpMethod = "GET" ∧ event.resource = "/data/{keyId}" then
      getData event s fault
    else if event.httpMethod = "PUT" ∧ event.resource = "/data/{keyId}" then
      updateData event s now fault
    else if event.httpMethod = "DELETE" ∧ event.resource = "/data/{keyId}" then
      deleteData event s fault
    else
      .ok (response 400 (errorBody "Unsupported method or path"), s))
    s

/-- The four `(method, resource)` pairs the variant 2 router serves. -/
def routeTable : List (String × String) :=
  [("POST", "/data"), ("GET", "/data/{keyId}"),
   ("PUT", "/data/{keyId}"), ("DELETE", "/data/{keyId}")]

/-- One PUT request against key `k` in variant 2: body JSON and
timestamp; a failed update leaves the store as it was (the conditional
write is atomic). -/
def stepUpdateV2 (k : String) (s : Store) (req : Json × String) : Store :=
  match updateData ⟨"PUT", "/data/{keyId}", some (some k), .parsed req.1⟩
      s req.2 none with
  | .ok p => p.2
  | .error _ => s

/-- A sequence of PUT requests against key `k`, applied left to right. -/
def runUpdatesV2 (k : String) (s : Store) (reqs : List (Json × String)) :
    Store :=
  reqs.foldl (stepUpdateV2 k) s

/-- The complete set of status codes any branch of either variant can
produce. -/
def allStatusCodes : List Nat := [200, 201, 400, 404, 405, 409, 500]

/-- A well-formed response: the fixed header set, a JSON-object body,
and a status code from the closed list. -/
def GoodResp (r : Resp) : Prop :=
  r.headers = CORS_HEADERS ∧ (∃ fs, r.body = .obj fs) ∧
    r.statusCode ∈ allStatusCodes

/-- Every value an `Except`-valued subhandler can return normally is a
well-formed response. -/
def GoodExcept (x : Except JsError (Resp × Store)) : Prop :=
  ∀ r s2, x = .ok (r, s2) → GoodResp r

/-- Claim C1: for every request whose parsed body carries a nonempty string
`payload` and a valid `meta` (an object, `null`, or omitted), a successful
create (fresh `keyId`) immediately followed by a read of the returned
`keyId` yields HTTP 200 with the same `payload`, `version = 1`, and `meta`
equal to what was submitted, or `null` when it was omitted. -/
theorem create_then_read_roundtrip
    (s : Store) (keyId now p : String) (fields : List (String × Json))
    (hk : keyId ≠ "") (hp : p ≠ "")
    (hfresh : Store.find s keyId = none)
    (hpayload : lookupField fields "payload" = some (.str p))
    (hmeta : lookupField fields "meta" = none ∨
      lookupField fields "meta" = some .null ∨
      ∃ mfs, lookupField fields "meta" = some (.obj mfs)) :
    ∃ s2,
      createData ⟨"POST", "/data", none, .parsed (.obj fields)⟩ s keyId now none =
        .ok (response 201 (.obj [("keyId", .str keyId), ("version", .num 1),
          ("updatedAt", .str now)]), s2) ∧
      getData ⟨"GET", "/data/{keyId}", some (some keyId), .absent⟩ s2 none =
        .ok (response 200 (.obj [("keyId", .str keyId), ("version", .num 1),
          ("payload", .str p),
          ("meta", (lookupField fields "meta").getD .null),
          ("updatedAt", .str now)]), s2) := by
  refine ⟨(keyId, ⟨1, .str p, (lookupField fields "meta").getD .null, now⟩) :: s, ?_, ?_⟩
  · unfold createData
    simp only [jsonParseV2, jsMember, Json.get, hpayload, jsTruthy, Json.truthy, hp,
      dbSend, condPut, hfresh, catchCCF, Except.instMonad, Except.bind, Except.pure]
    rcases hmeta with h | h | ⟨mfs, h⟩ <;>
      simp [h, hp, hfresh, catchCCF, dbSend, condPut]
  · unfold getData
    simp [Event.keyIdOpt, strTruthy, hk, dbSend, Store.find, Except.instMonad,
      Except.bind, Except.pure]

theorem Store.find_set_present (s : Store) (k : String) (r0 r : Record)
    (h : Store.find s k = some r0) : Store.find (Store.set s k r) k = some r := by
  induction s with
  | nil => simp [Store.find] at h
  | cons hd tl ih =>
      obtain ⟨k0, rr⟩ := hd
      by_cases hk : k0 = k
      · simp [Store.find, Store.set, hk]
      · simp only [Store.find, Store.set, if_neg hk] at h ⊢
        exact ih h

theorem updateData_ok (k now : String) (body : Json) (s : Store) (r : Record)
    (hk : k ≠ "") (hfind : Store.find s k = some r)
    (hp : jsTruthy (Json.get body "payload") = true) :
    updateData ⟨"PUT", "/data/{keyId}", some (some k), .parsed body⟩ s now none =
      .ok (response 200 (.obj [("keyId", .str k),
          ("version", .num ((r.version + 1 : Nat) : Int)),
          ("updatedAt", .str now)]),
        Store.set s k ⟨r.version + 1, (Json.get body "payload").getD .null,
          if jsTruthy (Json.get body "meta") then (Json.get body "meta").getD .null
          else .null, now⟩) := by
  cases body with
  | obj fs =>
      simp [updateData, Event.keyIdOpt, strTruthy, hk, jsonParseV2, jsMember,
        Json.get, hp, dbSend, condUpdate, hfind, catchCCF, Except.instMonad,
        Except.bind, Except.pure]
      simp [Json.get] at hp
      simp [hp]
  | null => simp [Json.get, jsTruthy] at hp
  | bool b => simp [Json.get, jsTruthy] at hp
  | num n => simp [Json.get, jsTruthy] at hp
  | str t => simp [Json.get, jsTruthy] at hp
  | arr xs => simp [Json.get, jsTruthy] at hp

theorem updateDataset_ok (k now : String) (body : Json) (s : Store) (r : Record)
    (hk : k ≠ "") (hfind : Store.find s k = some r)
    (hval : validatePayload (Json.get body "payload") (Json.get body "meta") = .ok ()) :
    updateDataset ⟨"PUT", "/data/{keyId}", some (some k), .parsed body⟩ s now none =
      (createResponse 200 (.obj [("keyId", .str k),
          ("version", .num ((r.version + 1 : Nat) : Int)),
          ("updatedAt", .str now)]),
        Store.set s k ⟨r.version + 1, (Json.get body "payload").getD .null,
          (Json.get body "meta").getD .null, now⟩) := by
  cases body with
  | obj fs =>
      simp only [Json.get] at hval
      simp [updateDataset, Event.keyIdDestructure, strTruthy, hk, jsonParseV1,
        jsMember, Json.get, hval, dbSend, condUpdate, hfind, catchV1,
        Except.instMonad, Except.bind, Except.pure]
  | null => simp [Json.get, validatePayload, jsTruthy, jsIsString] at hval
  | bool b => simp [Json.get, validatePayload, jsTruthy, jsIsString] at hval
  | num n => simp [Json.get, validatePayload, jsTruthy, jsIsString] at hval
  | str t => simp [Json.get, validatePayload, jsTruthy, jsIsString] at hval
  | arr xs => simp [Json.get, validatePayload, jsTruthy, jsIsString] at hval

theorem runUpdatesV2_version (k : String) (reqs : List (Json × String))
    (s : Store) (r : Record) (hk : k ≠ "")
    (hfind : Store.find s k = some r)
    (hreq : ∀ req ∈ reqs, jsTruthy (Json.get req.1 "payload") = true) :
    ∃ r2, Store.find (runUpdatesV2 k s reqs) k = some r2 ∧
      r2.version = r.version + reqs.length := by
  induction reqs generalizing s r with
  | nil => exact ⟨r, hfind, by simp [runUpdatesV2]⟩
  | cons req rest ih =>
      have hp : jsTruthy (Json.get req.1 "payload") = true :=
        hreq req (List.mem_cons_self _ _)
      have hstep := updateData_ok k req.2 req.1 s r hk hfind hp
      have hfind2 : Store.find (stepUpdateV2 k s req) k =
          some ⟨r.version + 1, (Json.get req.1 "payload").getD .null,
            if jsTruthy (Json.get req.1 "meta") then (Json.get req.1 "meta").getD .null
            else .null, req.2⟩ := by
        simp only [stepUpdateV2, hstep]
        exact Store.find_set_present s k r _ hfind
      obtain ⟨r2, h2, hv⟩ := ih (stepUpdateV2 k s req) _ hfind2
        (fun q hq => hreq q (List.mem_cons_of_mem _ hq))
      refine ⟨r2, ?_, ?_⟩
      · simpa [runUpdatesV2, List.foldl] using h2
      · simp [hv]; omega

theorem strEq_clause (v : Option Json) (t : String) :
    (!jsStrictEqStr v t) = false ↔ v = some (.str t) := by
  cases v with
  | none => simp [jsStrictEqStr]
  | some j => cases j <;> simp [jsStrictEqStr]

theorem numMin_clause (v : Option Json) :
    (!jsTruthy v || !jsIsNumber v || decide (jsNumVal v < 100000)) = false ↔
      ∃ n : Int, v = some (.num n) ∧ 100000 ≤ n := by
  cases v with
  | none => simp [jsTruthy, jsIsNumber]
  | some j =>
      cases j <;> simp [jsTruthy, Json.truthy, jsIsNumber, jsNumVal]
      omega

theorem strNonempty_clause (v : Option Json) :
    (!jsTruthy v || !jsIsString v) = false ↔
      ∃ t : String, v = some (.str t) ∧ t ≠ "" := by
  cases v with
  | none => simp [jsTruthy, jsIsString]
  | some j => cases j <;> simp [jsTruthy, Json.truthy, jsIsString]

theorem numTruthy_clause (v : Option Json) :
    (!jsTruthy v || !jsIsNumber v) = false ↔
      ∃ n : Int, v = some (.num n) ∧ n ≠ 0 := by
  cases v with
  | none => simp [jsTruthy, jsIsNumber]
  | some j => cases j <;> simp [jsTruthy, Json.truthy, jsIsNumber]

theorem validatePayload_guard_values
    (p : String) (mfs : List (String × Json)) (hp : p ≠ "")
    (g1 g2 g3 g4 g5 g6 : Bool)
    (h1 : jsStrictEqStr (lookupField mfs "enc") "AES-GCM" = g1)
    (h2 : jsStrictEqStr (lookupField mfs "kdf") "PBKDF2-SHA256" = g2)
    (h3 : (!jsTruthy (lookupField mfs "iterations") ||
      !jsIsNumber (lookupField mfs "iterations") ||
      decide (jsNumVal (lookupField mfs "iterations") < 100000)) = g3)
    (h4 : (!jsTruthy (lookupField mfs "salt") ||
      !jsIsString (lookupField mfs "salt")) = g4)
    (h5 : (!jsTruthy (lookupField mfs "iv") ||
      !jsIsString (lookupField mfs "iv")) = g5)
    (h6 : (!jsTruthy (lookupField mfs "schemaVersion") ||
      !jsIsNumber (lookupField mfs "schemaVersion")) = g6) :
    validatePayload (some (.str p)) (some (.obj mfs)) =
      (if !g1 then .error ⟨"Error", "meta.enc must be \"AES-GCM\""⟩
       else if !g2 then .error ⟨"Error", "meta.kdf must be \"PBKDF2-SHA256\""⟩
       else if g3 then .error ⟨"Error", "meta.iterations must be a number >= 100000"⟩
       else if g4 then .error ⟨"Error", "meta.salt is required and must be a base64 string"⟩
       else if g5 then .error ⟨"Error", "meta.iv is required and must be a base64 string"⟩
       else if g6 then .error ⟨"Error", "meta.schemaVersion is required and must be a number"⟩
       else .ok ()) := by
  have e1 : (!jsTruthy (some (.str p)) || !jsIsString (some (.str p))) = false := by
    simp [jsTruthy, Json.truthy, jsIsString, hp]
  have e2 : (!jsTruthy (some (.obj mfs)) || !jsIsObjectTypeof (some (.obj mfs))) = false := by
    simp [jsTruthy, Json.truthy, jsIsObjectTypeof]
  simp only [validatePayload, e1, e2, Option.getD, Json.get, Bool.false_eq_true,
    if_false, h1, h2, h3, h4, h5, h6]

/-- Claim C7 (amended): strict validation accepts a payload/meta pair
(valid `payload`, object `meta`) exactly when `enc` is "AES-GCM", `kdf`
is "PBKDF2-SHA256", `iterations` is a number at least 100000, `salt` and
`iv` are nonempty strings, and `schemaVersion` is a nonzero number (not
any number: 0 is rejected); and a rejection reports the first violated
field by name in the error message. -/
theorem strict_meta_validation_characterization
    (p : String) (mfs : List (String × Json)) (hp : p ≠ "") :
    (validatePayload (some (.str p)) (some (.obj mfs)) = .ok () ↔
      (lookupField mfs "enc" = some (.str "AES-GCM") ∧
       lookupField mfs "kdf" = some (.str "PBKDF2-SHA256") ∧
       (∃ n : Int, lookupField mfs "iterations" = some (.num n) ∧ 100000 ≤ n) ∧
       (∃ t : String, lookupField mfs "salt" = some (.str t) ∧ t ≠ "") ∧
       (∃ t : String, lookupField mfs "iv" = some (.str t) ∧ t ≠ "") ∧
       (∃ n : Int, lookupField mfs "schemaVersion" = some (.num n) ∧ n ≠ 0))) ∧
    (lookupField mfs "enc" ≠ some (.str "AES-GCM") →
      validatePayload (some (.str p)) (some (.obj mfs)) =
        .error ⟨"Error", "meta.enc must be \"AES-GCM\""⟩) ∧
    (lookupField mfs "enc" = some (.str "AES-GCM") →
     lookupField mfs "kdf" ≠ some (.str "PBKDF2-SHA256") →
      validatePayload (some (.str p)) (some (.obj mfs)) =
        .error ⟨"Error", "meta.kdf must be \"PBKDF2-SHA256\""⟩) ∧
    (lookupField mfs "enc" = some (.str "AES-GCM") →
     lookupField mfs "kdf" = some (.str "PBKDF2-SHA256") →
     (¬∃ n : Int, lookupField mfs "iterations" = some (.num n) ∧ 100000 ≤ n) →
      validatePayload (some (.str p)) (some (.obj mfs)) =
        .error ⟨"Error", "meta.iterations must be a number >= 100000"⟩) ∧
    (lookupField mfs "enc" = some (.str "AES-GCM") →
     lookupField mfs "kdf" = some (.str "PBKDF2-SHA256") →
     (∃ n : Int, lookupField mfs "iterations" = some (.num n) ∧ 100000 ≤ n) →
     (¬∃ t : String, lookupField mfs "salt" = some (.str t) ∧ t ≠ "") →
      validatePayload (some (.str p)) (some (.obj mfs)) =
        .error ⟨"Error", "meta.salt is required and must be a base64 string"⟩) ∧
    (lookupField mfs "enc" = some (.str "AES-GCM") →
     lookupField mfs "kdf" = some (.str "PBKDF2-SHA256") →
     (∃ n : Int, lookupField mfs "iterations" = some (.num n) ∧ 100000 ≤ n) →
     (∃ t : String, lookupField mfs "salt" = some (.str t) ∧ t ≠ "") →
     (¬∃ t : String, lookupField mfs "iv" = some (.str t) ∧ t ≠ "") →
      validatePayload (some (.str p)) (some (.obj mfs)) =
        .error ⟨"Error", "meta.iv is required and must be a base64 string"⟩) ∧
    (lookupField mfs "enc" = some (.str "AES-GCM") →
     lookupField mfs "kdf" = some (.str "PBKDF2-SHA256") →
     (∃ n : Int, lookupField mfs "iterations" = some (.num n) ∧ 100000 ≤ n) →
     (∃ t : String, lookupField mfs "salt" = some (.str t) ∧ t ≠ "") →
     (∃ t : String, lookupField mfs "iv" = some (.str t) ∧ t ≠ "") →
     (¬∃ n : Int, lookupField mfs "schemaVersion" = some (.num n) ∧ n ≠ 0) →
      validatePayload (some (.str p)) (some (.obj mfs)) =
        .error ⟨"Error", "meta.schemaVersion is required and must be a number"⟩) := by
  refine ⟨?_, ?_, ?_, ?_, ?_, ?_, ?_⟩
  · have e1 : (!jsTruthy (some (.str p)) || !jsIsString (some (.str p))) = false := by
      simp [jsTruthy, Json.truthy, jsIsString, hp]
    have e2 : (!jsTruthy (some (.obj mfs)) || !jsIsObjectTypeof (some (.obj mfs))) = false := by
      simp [jsTruthy, Json.truthy, jsIsObjectTypeof]
    rw [← strEq_clause, ← strEq_clause, ← numMin_clause, ← strNonempty_clause,
      ← strNonempty_clause, ← numTruthy_clause]
    simp only [validatePayload, e1, e2, Option.getD, Json.get, Bool.false_eq_true,
      if_false]
    generalize jsStrictEqStr (lookupField mfs "enc") "AES-GCM" = b1
    generalize jsStrictEqStr (lookupField mfs "kdf") "PBKDF2-SHA256" = b2
    generalize (!jsTruthy (lookupField mfs "iterations") ||
        !jsIsNumber (lookupField mfs "iterations") ||
        decide (jsNumVal (lookupField mfs "iterations") < 100000)) = b3
    generalize (!jsTruthy (lookupField mfs "salt") ||
        !jsIsString (lookupField mfs "salt")) = b4
    generalize (!jsTruthy (lookupField mfs "iv") ||
        !jsIsString (lookupField mfs "iv")) = b5
    cases b1 <;> cases b2 <;> cases b3 <;> cases b4 <;> cases b5 <;>
      by_cases h6 : (!jsTruthy (lookupField mfs "schemaVersion") ||
        !jsIsNumber (lookupField mfs "schemaVersion")) = true <;>
      simp_all
    rcases h6 with h | h <;> simp_all
  · intro hne
    have hg1 : jsStrictEqStr (lookupField mfs "enc") "AES-GCM" = false := by
      cases hg : jsStrictEqStr (lookupField mfs "enc") "AES-GCM"
      · rfl
      · exact absurd ((strEq_clause _ _).mp (by simp [hg])) hne
    rw [validatePayload_guard_values p mfs hp false _ _ _ _ _ hg1 rfl rfl rfl rfl rfl]
    simp
  · intro h1 hne
    have hg1 : jsStrictEqStr (lookupField mfs "enc") "AES-GCM" = true := by
      simpa using (strEq_clause (lookupField mfs "enc") "AES-GCM").mpr h1
    have hg2 : jsStrictEqStr (lookupField mfs "kdf") "PBKDF2-SHA256" = false := by
      cases hg : jsStrictEqStr (lookupField mfs "kdf") "PBKDF2-SHA256"
      · rfl
      · exact absurd ((strEq_clause _ _).mp (by simp [hg])) hne
    rw [validatePayload_guard_values p mfs hp true false _ _ _ _ hg1 hg2 rfl rfl rfl rfl]
    simp
  · intro h1 h2 hne
    have hg1 : jsStrictEqStr (lookupField mfs "enc") "AES-GCM" = true := by
      simpa using (strEq_clause (lookupField mfs "enc") "AES-GCM").mpr h1
    have hg2 : jsStrictEqStr (lookupField mfs "kdf") "PBKDF2-SHA256" = true := by
      simpa using (strEq_clause (lookupField mfs "kdf") "PBKDF2-SHA256").mpr h2
    have hg3 : (!jsTruthy (lookupField mfs "iterations") ||
        !jsIsNumber (lookupField mfs "iterations") ||
        decide (jsNumVal (lookupField mfs "iterations") < 100000)) = true := by
      cases hg : (!jsTruthy (lookupField mfs "iterations") ||
          !jsIsNumber (lookupField mfs "iterations") ||
          decide (jsNumVal (lookupField mfs "iterations") < 100000))
      · exact absurd ((numMin_clause _).mp hg) hne
      · rfl
    rw [validatePayload_guard_values p mfs hp true true true _ _ _ hg1 hg2 hg3 rfl rfl rfl]
    simp
  · intro h1 h2 h3 hne
    have hg1 : jsStrictEqStr (lookupField mfs "enc") "AES-GCM" = true := by
      simpa using (strEq_clause (lookupField mfs "enc") "AES-GCM").mpr h1
    have hg2 : jsStrictEqStr (lookupField mfs "kdf") "PBKDF2-SHA256" = true := by
      simpa using (strEq_clause (lookupField mfs "kdf") "PBKDF2-SHA256").mpr h2
    have hg3 := (numMin_clause (lookupField mfs "iterations")).mpr h3
    have hg4 : (!jsTruthy (lookupField mfs "salt") ||
        !jsIsString (lookupField mfs "salt")) = true := by
      cases hg : (!jsTruthy (lookupField mfs "salt") ||
          !jsIsString (lookupField mfs "salt"))
      · exact absurd ((strNonempty_clause _).mp hg) hne
      · rfl
    rw [validatePayload_guard_values p mfs hp true true false true _ _ hg1 hg2 hg3 hg4 rfl rfl]
    simp
  · intro h1 h2 h3 h4 hne
    have hg1 : jsStrictEqStr (lookupField mfs "enc") "AES-GCM" = true := by
      simpa using (strEq_clause (lookupField mfs "enc") "AES-GCM").mpr h1
    have hg2 : jsStrictEqStr (lookupField mfs "kdf") "PBKDF2-SHA256" = true := by
      simpa using (strEq_clause (lookupField mfs "kdf") "PBKDF2-SHA256").mpr h2
    have hg3 := (numMin_clause (lookupField mfs "iterations")).mpr h3
    have hg4 := (strNonempty_clause (lookupField mfs "salt")).mpr h4
    have hg5 : (!jsTruthy (lookupField mfs "iv") ||
        !jsIsString (lookupField mfs "iv")) = true := by
      cases hg : (!jsTruthy (lookupField mfs "iv") ||
          !jsIsString (lookupField mfs "iv"))
      · exact absurd ((strNonempty_clause _).mp hg) hne
      · rfl
    rw [validatePayload_guard_values p mfs hp true true false false true _ hg1 hg2 hg3 hg4 hg5 rfl]
    simp
  · intro h1 h2 h3 h4 h5 hne
    have hg1 : jsStrictEqStr (lookupField mfs "enc") "AES-GCM" = true := by
      simpa using (strEq_clause (lookupField mfs "enc") "AES-GCM").mpr h1
    have hg2 : jsStrictEqStr (lookupField mfs "kdf") "PBKDF2-SHA256" = true := by
      simpa using (strEq_clause (lookupField mfs "kdf") "PBKDF2-SHA256").mpr h2
    have hg3 := (numMin_clause (lookupField mfs "iterations")).mpr h3
    have hg4 := (strNonempty_clause (lookupField mfs "salt")).mpr h4
    have hg5 := (strNonempty_clause (lookupField mfs "iv")).mpr h5
    have hg6 : (!jsTruthy (lookupField mfs "schemaVersion") ||
        !jsIsNumber (lookupField mfs "schemaVersion")) = true := by
      cases hg : (!jsTruthy (lookupField mfs "schemaVersion") ||
          !jsIsNumber (lookupField mfs "schemaVersion"))
      · exact absurd ((numTruthy_clause _).mp hg) hne
      · rfl
    rw [validatePayload_guard_values p mfs hp true true false false false true hg1 hg2 hg3 hg4 hg5 hg6]
    simp

theorem goodResp_obj (code : Nat) (fs : List (String × Json))
    (h : code ∈ allStatusCodes) : GoodResp ⟨code, CORS_HEADERS, .obj fs⟩ :=
  ⟨rfl, ⟨fs, rfl⟩, h⟩

theorem goodExcept_ok (p : Resp × Store) (h : GoodResp p.1) :
    GoodExcept (Except.ok p) := by
  intro r s2 heq
  cases heq
  exact h

theorem goodExcept_error (e : JsError) :
    GoodExcept (Except.error e : Except JsError (Resp × Store)) := by
  intro r s2 heq
  cases heq

theorem goodExcept_bind {α : Type} (a : Except JsError α)
    (f : α → Except JsError (Resp × Store))
    (h : ∀ v, GoodExcept (f v)) : GoodExcept (a >>= f) := by
  intro r s2 heq
  cases a with
  | error e => simp [Bind.bind, Except.bind] at heq
  | ok v => exact h v r s2 (by simpa [Bind.bind, Except.bind] using heq)

theorem goodExcept_ite (c : Prop) [Decidable c]
    (a b : Except JsError (Resp × Store))
    (ha : GoodExcept a) (hb : GoodExcept b) :
    GoodExcept (if c then a else b) := by
  by_cases h : c
  · simpa [h] using ha
  · simpa [h] using hb

theorem goodExcept_catchCCF (attempt : Except JsError (Resp × Store))
    (s : Store) (resp : Resp) (hatt : GoodExcept attempt)
    (hresp : GoodResp resp) : GoodExcept (catchCCF attempt s resp) := by
  intro r s2 heq
  cases attempt with
  | ok v =>
      simp only [catchCCF] at heq
      exact hatt r s2 heq
  | error e =>
      simp only [catchCCF] at heq
      by_cases hn : e.name = "ConditionalCheckFailedException"
      · rw [if_pos hn] at heq
        cases heq
        exact hresp
      · rw [if_neg hn] at heq
        cases heq

theorem goodResp_catchV1 (attempt : Except JsError (Resp × Store))
    (s : Store) (handle : JsError → Resp) (hatt : GoodExcept attempt)
    (hh : ∀ e, GoodResp (handle e)) :
    GoodResp (catchV1 attempt s handle).1 := by
  cases attempt with
  | ok v =>
      obtain ⟨r, s2⟩ := v
      exact hatt r s2 rfl
  | error e => exact hh e

theorem goodResp_response (code : Nat) (fs : List (String × Json))
    (h : code ∈ allStatusCodes) : GoodResp (response code (.obj fs)) :=
  ⟨rfl, ⟨fs, rfl⟩, h⟩

theorem goodResp_createResponse (code : Nat) (fs : List (String × Json))
    (h : code ∈ allStatusCodes) : GoodResp (createResponse code (.obj fs)) :=
  ⟨rfl, ⟨fs, rfl⟩, h⟩

theorem createData_good (ev : Event) (s : Store) (k n : String)
    (f : Option JsError) : GoodExcept (createData ev s k n f) := by
  unfold createData
  refine goodExcept_catchCCF _ _ _ ?_ (goodResp_response 409 _ (by simp [allStatusCodes]))
  refine goodExcept_bind _ _ fun body => ?_
  refine goodExcept_bind _ _ fun payload => ?_
  refine goodExcept_ite _ _ _
    (goodExcept_ok _ (goodResp_response 400 _ (by simp [allStatusCodes]))) ?_
  refine goodExcept_bind _ _ fun meta => ?_
  refine goodExcept_bind _ _ fun s2 => ?_
  exact goodExcept_ok _ (goodResp_response 201 _ (by simp [allStatusCodes]))

theorem getData_good (ev : Event) (s : Store) (f : Option JsError) :
    GoodExcept (getData ev s f) := by
  unfold getData
  refine goodExcept_ite _ _ _
    (goodExcept_ok _ (goodResp_response 400 _ (by simp [allStatusCodes]))) ?_
  refine goodExcept_bind _ _ fun item => ?_
  cases item with
  | none => exact goodExcept_ok _ (goodResp_response 404 _ (by simp [allStatusCodes]))
  | some r => exact goodExcept_ok _ (goodResp_response 200 _ (by simp [allStatusCodes]))

theorem updateData_good (ev : Event) (s : Store) (n : String)
    (f : Option JsError) : GoodExcept (updateData ev s n f) := by
  unfold updateData
  refine goodExcept_ite _ _ _
    (goodExcept_ok _ (goodResp_response 400 _ (by simp [allStatusCodes]))) ?_
  refine goodExcept_catchCCF _ _ _ ?_ (goodResp_response 404 _ (by simp [allStatusCodes]))
  refine goodExcept_bind _ _ fun body => ?_
  refine goodExcept_bind _ _ fun payload => ?_
  refine goodExcept_ite _ _ _
    (goodExcept_ok _ (goodResp_response 400 _ (by simp [allStatusCodes]))) ?_
  refine goodExcept_bind _ _ fun meta => ?_
  refine goodExcept_bind _ _ fun res => ?_
  exact goodExcept_ok _ (goodResp_response 200 _ (by simp [allStatusCodes]))

theorem deleteData_good (ev : Event) (s : Store) (f : Option JsError) :
    GoodExcept (deleteData ev s f) := by
  unfold deleteData
  refine goodExcept_ite _ _ _
    (goodExcept_ok _ (goodResp_response 400 _ (by simp [allStatusCodes]))) ?_
  refine goodExcept_catchCCF _ _ _ ?_ (goodResp_response 404 _ (by simp [allStatusCodes]))
  refine goodExcept_bind _ _ fun s2 => ?_
  exact goodExcept_ok _ (goodResp_response 200 _ (by simp [allStatusCodes]))

theorem createDataset_good (ev : Event) (s : Store) (k n : String)
    (f : Option JsError) : GoodResp (createDataset ev s k n f).1 := by
  unfold createDataset
  refine goodResp_catchV1 _ _ _ ?_ ?_
  · refine goodExcept_bind _ _ fun body => ?_
    refine goodExcept_bind _ _ fun payload => ?_
    refine goodExcept_bind _ _ fun meta => ?_
    refine goodExcept_bind _ _ fun u => ?_
    refine goodExcept_bind _ _ fun s2 => ?_
    exact goodExcept_ok _ (goodResp_createResponse 201 _ (by simp [allStatusCodes]))
  · intro e
    by_cases h : e.name = "ConditionalCheckFailedException"
    · rw [if_pos h]
      exact goodResp_createResponse 409 _ (by simp [allStatusCodes])
    · rw [if_neg h]
      exact goodResp_createResponse 400 _ (by simp [allStatusCodes])

theorem getDataset_good (ev : Event) (s : Store) (f : Option JsError) :
    GoodResp (getDataset ev s f).1 := by
  unfold getDataset
  refine goodResp_catchV1 _ _ _ ?_ ?_
  · refine goodExcept_bind _ _ fun keyId => ?_
    refine goodExcept_ite _ _ _
      (goodExcept_ok _ (goodResp_createResponse 400 _ (by simp [allStatusCodes]))) ?_
    refine goodExcept_bind _ _ fun item => ?_
    cases item with
    | none => exact goodExcept_ok _ (goodResp_createResponse 404 _ (by simp [allStatusCodes]))
    | some r => exact goodExcept_ok _ (goodResp_createResponse 200 _ (by simp [allStatusCodes]))
  · intro e
    exact goodResp_createResponse 500 _ (by simp [allStatusCodes])

theorem updateDataset_good (ev : Event) (s : Store) (n : String)
    (f : Option JsError) : GoodResp (updateDataset ev s n f).1 := by
  unfold updateDataset
  refine goodResp_catchV1 _ _ _ ?_ ?_
  · refine goodExcept_bind _ _ fun keyId => ?_
    refine goodExcept_bind _ _ fun body => ?_
    refine goodExcept_bind _ _ fun payload => ?_
    refine goodExcept_bind _ _ fun meta => ?_
    refine goodExcept_ite _ _ _
      (goodExcept_ok _ (goodResp_createResponse 400 _ (by simp [allStatusCodes]))) ?_
    refine goodExcept_bind _ _ fun u => ?_
    refine goodExcept_bind _ _ fun res => ?_
    exact goodExcept_ok _ (goodResp_createResponse 200 _ (by simp [allStatusCodes]))
  · intro e
    by_cases h : e.name = "ConditionalCheckFailedException"
    · rw [if_pos h]
      exact goodResp_createResponse 404 _ (by simp [allStatusCodes])
    · rw [if_neg h]
      exact goodResp_createResponse 400 _ (by simp [allStatusCodes])

theorem deleteDataset_good (ev : Event) (s : Store) (f : Option JsError) :
    GoodResp (deleteDataset ev s f).1 := by
  unfold deleteDataset
  refine goodResp_catchV1 _ _ _ ?_ ?_
  · refine goodExcept_bind _ _ fun keyId => ?_
    refine goodExcept_ite _ _ _
      (goodExcept_ok _ (goodResp_createResponse 400 _ (by simp [allStatusCodes]))) ?_
    refine goodExcept_bind _ _ fun s2 => ?_
    exact goodExcept_ok _ (goodResp_createResponse 200 _ (by simp [allStatusCodes]))
  · intro e
    by_cases h : e.name = "ConditionalCheckFailedException"
    · rw [if_pos h]
      exact goodResp_createResponse 404 _ (by simp [allStatusCodes])
    · rw [if_neg h]
      exact goodResp_createResponse 500 _ (by simp [allStatusCodes])

theorem mainHandler_good (ev : Event) (s : Store) (k n : String)
    (f : Option JsError) : GoodResp (mainHandler ev s k n f).1 := by
  unfold mainHandler
  by_cases h1 : ev.httpMethod = "OPTIONS"
  · rw [if_pos h1]
    exact goodResp_createResponse 200 [] (by simp [allStatusCodes])
  · rw [if_neg h1]
    by_cases h2 : ev.httpMethod = "POST"
    · rw [if_pos h2]; exact createDataset_good ev s k n f
    · rw [if_neg h2]
      by_cases h3 : ev.httpMethod = "GET"
      · rw [if_pos h3]; exact getDataset_good ev s f
      · rw [if_neg h3]
        by_cases h4 : ev.httpMethod = "PUT"
        · rw [if_pos h4]; exact updateDataset_good ev s n f
        · rw [if_neg h4]
          by_cases h5 : ev.httpMethod = "DELETE"
          · rw [if_pos h5]; exact deleteDataset_good ev s f
          · rw [if_neg h5]
            exact goodResp_createResponse 405 _ (by simp [allStatusCodes])

theorem goodResp_catchAll500 (attempt : Except JsError (Resp × Store))
    (s : Store) (hatt : GoodExcept attempt) :
    GoodResp (catchAll500 attempt s).1 := by
  cases attempt with
  | ok v =>
      obtain ⟨r, s2⟩ := v
      exact hatt r s2 rfl
  | error e => exact goodResp_response 500 _ (by simp [allStatusCodes])

theorem handler_good (ev : Event) (s : Store) (k n : String)
    (f : Option JsError) : GoodResp (handler ev s k n f).1 := by
  unfold handler
  refine goodResp_catchAll500 _ _ ?_
  refine goodExcept_ite _ _ _ (goodExcept_ok _ (goodResp_response 200 [] (by simp [allStatusCodes]))) ?_
  refine goodExcept_ite _ _ _ (goodExcept_ok _ (goodResp_response 200 [] (by simp [allStatusCodes]))) ?_
  refine goodExcept_ite _ _ _ (createData_good ev s k n f) ?_
  refine goodExcept_ite _ _ _ (getData_good ev s f) ?_
  refine goodExcept_ite _ _ _ (updateData_good ev s n f) ?_
  refine goodExcept_ite _ _ _ (deleteData_good ev s f) ?_
  exact goodExcept_ok _ (goodResp_response 400 _ (by simp [allStatusCodes]))

/-- Claim C2: a single successful update (in either variant) returns
HTTP 200 carrying `version` exactly one greater than the version stored
immediately before, and stores that incremented version; and after `N`
successful updates to a record created at version 1 the stored version is
`1 + N`. -/
theorem update_version_post_increment
    (k now : String) (body : Json) (s : Store) (r : Record)
    (reqs : List (Json × String))
    (hk : k ≠ "") (hfind : Store.find s k = some r)
    (hp : jsTruthy (Json.get body "payload") = true)
    (hval : validatePayload (Json.get body "payload") (Json.get body "meta") = .ok ())
    (hv1 : r.version = 1)
    (hreq : ∀ req ∈ reqs, jsTruthy (Json.get req.1 "payload") = true) :
    updateData ⟨"PUT", "/data/{keyId}", some (some k), .parsed body⟩ s now none =
      .ok (response 200 (.obj [("keyId", .str k),
          ("version", .num ((r.version + 1 : Nat) : Int)),
          ("updatedAt", .str now)]),
        Store.set s k ⟨r.version + 1, (Json.get body "payload").getD .null,
          if jsTruthy (Json.get body "meta") then (Json.get body "meta").getD .null
          else .null, now⟩) ∧
    updateDataset ⟨"PUT", "/data/{keyId}", some (some k), .parsed body⟩ s now none =
      (createResponse 200 (.obj [("keyId", .str k),
          ("version", .num ((r.version + 1 : Nat) : Int)),
          ("updatedAt", .str now)]),
        Store.set s k ⟨r.version + 1, (Json.get body "payload").getD .null,
          (Json.get body "meta").getD .null, now⟩) ∧
    (∃ r2, Store.find (runUpdatesV2 k s reqs) k = some r2 ∧
      r2.version = 1 + reqs.length) := by
  refine ⟨updateData_ok k now body s r hk hfind hp,
          updateDataset_ok k now body s r hk hfind hval, ?_⟩
  obtain ⟨r2, h2, hv⟩ := runUpdatesV2_version k reqs s r hk hfind hreq
  exact ⟨r2, h2, by omega⟩

/-- Concrete instance of C2: two successful updates to a version-1 record
leave version `1 + 2`. -/
theorem update_version_post_increment_witness :
    ∃ r2, Store.find (runUpdatesV2 "k1"
        [("k1", ⟨1, .str "a", .null, "t0"⟩)]
        [(.obj [("payload", .str "b")], "t2"), (.obj [("payload", .str "c")], "t3")])
        "k1" = some r2 ∧
      r2.version = 1 + (2 : Nat) :=
  (update_version_post_increment "k1" "t1"
    (.obj [("payload", .str "x"),
      ("meta", .obj [("enc", .str "AES-GCM"), ("kdf", .str "PBKDF2-SHA256"),
        ("iterations", .num 100000), ("salt", .str "s"), ("iv", .str "i"),
        ("schemaVersion", .num 1)])])
    [("k1", ⟨1, .str "a", .null, "t0"⟩)] ⟨1, .str "a", .null, "t0"⟩
    [(.obj [("payload", .str "b")], "t2"), (.obj [("payload", .str "c")], "t3")]
    (by decide) rfl rfl rfl rfl
    (by simp [List.forall_mem_cons, Json.get, jsTruthy, Json.truthy, lookupField])).2.2

/-- Counterexample to claim C3 as stated: an update naming a `keyId` with
no record, whose body fails validation, returns HTTP 400 — not 404 — so
not every update naming a missing `keyId` yields 404. -/
theorem update_missing_key_invalid_body_yields_400 :
    updateDataset ⟨"PUT", "/data/{keyId}", some (some "missing"), .parsed (.obj [])⟩
        [] "t0" none =
      (createResponse 400 (errorBody "payload is required and must be a string"), []) ∧
    (400 : Nat) ≠ 404 := ⟨rfl, by decide⟩

/-- Claim C3 (amended): every structurally valid update request and every
delete request naming a `keyId` for which no record exists returns
HTTP 404, mapped 1:1 from the conditional-check failure signal, and
leaves the backend state unchanged. -/
theorem valid_update_delete_missing_key_404
    (k now : String) (body : Json) (s : Store)
    (hk : k ≠ "") (hmiss : Store.find s k = none)
    (hval : validatePayload (Json.get body "payload") (Json.get body "meta") = .ok ()) :
    updateDataset ⟨"PUT", "/data/{keyId}", some (some k), .parsed body⟩ s now none =
      (createResponse 404 (errorBody "Dataset not found"), s) ∧
    deleteDataset ⟨"DELETE", "/data/{keyId}", some (some k), .absent⟩ s none =
      (createResponse 404 (errorBody "Dataset not found"), s) := by
  constructor
  · cases body with
    | obj fs =>
        simp only [Json.get] at hval
        simp [updateDataset, Event.keyIdDestructure, strTruthy, hk, jsonParseV1,
          jsMember, Json.get, hval, dbSend, condUpdate, hmiss, catchV1,
          condCheckFailed, Except.instMonad, Except.bind, Except.pure]
    | null => simp [Json.get, validatePayload, jsTruthy, jsIsString] at hval
    | bool b => simp [Json.get, validatePayload, jsTruthy, jsIsString] at hval
    | num n => simp [Json.get, validatePayload, jsTruthy, jsIsString] at hval
    | str t => simp [Json.get, validatePayload, jsTruthy, jsIsString] at hval
    | arr xs => simp [Json.get, validatePayload, jsTruthy, jsIsString] at hval
  · simp [deleteDataset, Event.keyIdDestructure, strTruthy, hk, jsonParseV1,
      dbSend, condDelete, hmiss, catchV1, condCheckFailed, Except.instMonad,
      Except.bind, Except.pure]

/-- Concrete instance of amended C3 on the empty store. -/
theorem valid_update_delete_missing_key_404_witness :
    updateDataset ⟨"PUT", "/data/{keyId}", some (some "ghost"),
        .parsed (.obj [("payload", .str "x"),
          ("meta", .obj [("enc", .str "AES-GCM"), ("kdf", .str "PBKDF2-SHA256"),
            ("iterations", .num 100000), ("salt", .str "s"), ("iv", .str "i"),
            ("schemaVersion", .num 1)])])⟩ [] "t1" none =
      (createResponse 404 (errorBody "Dataset not found"), []) ∧
    deleteDataset ⟨"DELETE", "/data/{keyId}", some (some "ghost"), .absent⟩ [] none =
      (createResponse 404 (errorBody "Dataset not found"), []) :=
  valid_update_delete_missing_key_404 "ghost" "t1"
    (.obj [("payload", .str "x"),
      ("meta", .obj [("enc", .str "AES-GCM"), ("kdf", .str "PBKDF2-SHA256"),
        ("iterations", .num 100000), ("salt", .str "s"), ("iv", .str "i"),
        ("schemaVersion", .num 1)])])
    [] (by decide) rfl rfl

/-- Counterexample to claim C4 as stated: a backend failure other than the
conditional-check signal during a create returns HTTP 400 — not 500 — and
its body echoes the internal error message verbatim. -/
theorem create_backend_error_leaks_400 :
    createDataset ⟨"POST", "/data", none,
        .parsed (.obj [("payload", .str "x"),
          ("meta", .obj [("enc", .str "AES-GCM"), ("kdf", .str "PBKDF2-SHA256"),
            ("iterations", .num 100000), ("salt", .str "s"), ("iv", .str "i"),
            ("schemaVersion", .num 1)])])⟩
      [] "k1" "t1" (some ⟨"ServiceUnavailable", "connection reset by peer"⟩) =
      (createResponse 400 (errorBody "connection reset by peer"), []) ∧
    (400 : Nat) ≠ 500 := ⟨rfl, by decide⟩

/-- Claim C4 (amended): when the storage call fails with an error other
than the conditional-check signal, the variant 1 create and update
handlers return HTTP 400 echoing the error message (falling back to a
generic message only when it is empty), the variant 1 delete handler
returns a generic HTTP 500, and the variant 2 handler rethrows to its
top-level catch, returning a generic HTTP 500; the store is unchanged in
every case. -/
theorem backend_error_mapping
    (k keyId now : String) (body : Json) (s : Store) (e : JsError)
    (hk : k ≠ "")
    (hccf : e.name ≠ "ConditionalCheckFailedException")
    (hp : jsTruthy (Json.get body "payload") = true)
    (hval : validatePayload (Json.get body "payload") (Json.get body "meta") = .ok ()) :
    createDataset ⟨"POST", "/data", none, .parsed body⟩ s keyId now (some e) =
      (createResponse 400 (errorBody (messageOr e "Failed to create dataset")), s) ∧
    updateDataset ⟨"PUT", "/data/{keyId}", some (some k), .parsed body⟩ s now (some e) =
      (createResponse 400 (errorBody (messageOr e "Failed to update dataset")), s) ∧
    deleteDataset ⟨"DELETE", "/data/{keyId}", some (some k), .absent⟩ s (some e) =
      (createResponse 500 (errorBody "Failed to delete dataset"), s) ∧
    handler ⟨"POST", "/data", none, .parsed body⟩ s keyId now (some e) =
      (response 500 (errorBody "Internal Server Error"), s) := by
  refine ⟨?_, ?_, ?_, ?_⟩
  · cases body with
    | obj fs =>
        simp only [Json.get] at hval
        simp [createDataset, jsonParseV1, jsMember, Json.get, hval, dbSend,
          catchV1, hccf, Except.instMonad, Except.bind, Except.pure]
    | null => simp [Json.get, validatePayload, jsTruthy, jsIsString] at hval
    | bool b => simp [Json.get, validatePayload, jsTruthy, jsIsString] at hval
    | num n => simp [Json.get, validatePayload, jsTruthy, jsIsString] at hval
    | str t => simp [Json.get, validatePayload, jsTruthy, jsIsString] at hval
    | arr xs => simp [Json.get, validatePayload, jsTruthy, jsIsString] at hval
  · cases body with
    | obj fs =>
        simp only [Json.get] at hval
        simp [updateDataset, Event.keyIdDestructure, strTruthy, hk, jsonParseV1,
          jsMember, Json.get, hval, dbSend, catchV1, hccf, Except.instMonad,
          Except.bind, Except.pure]
    | null => simp [Json.get, validatePayload, jsTruthy, jsIsString] at hval
    | bool b => simp [Json.get, validatePayload, jsTruthy, jsIsString] at hval
    | num n => simp [Json.get, validatePayload, jsTruthy, jsIsString] at hval
    | str t => simp [Json.get, validatePayload, jsTruthy, jsIsString] at hval
    | arr xs => simp [Json.get, validatePayload, jsTruthy, jsIsString] at hval
  · simp [deleteDataset, Event.keyIdDestructure, strTruthy, hk, dbSend, catchV1,
      hccf, Except.instMonad, Except.bind, Except.pure]
  · cases body with
    | obj fs =>
        simp only [Json.get] at hp
        simp [handler, createData, jsonParseV2, jsMember, Json.get, hp, dbSend,
          catchCCF, catchAll500, hccf, Except.instMonad, Except.bind, Except.pure]
    | null => simp [Json.get, jsTruthy] at hp
    | bool b => simp [Json.get, jsTruthy] at hp
    | num n => simp [Json.get, jsTruthy] at hp
    | str t => simp [Json.get, jsTruthy] at hp
    | arr xs => simp [Json.get, jsTruthy] at hp

/-- Concrete instance of amended C4 with a non-conditional backend
error. -/
theorem backend_error_mapping_witness :
    createDataset ⟨"POST", "/data", none,
        .parsed (.obj [("payload", .str "x"),
          ("meta", .obj [("enc", .str "AES-GCM"), ("kdf", .str "PBKDF2-SHA256"),
            ("iterations", .num 100000), ("salt", .str "s"), ("iv", .str "i"),
            ("schemaVersion", .num 1)])])⟩
      [] "k1" "t1" (some ⟨"InternalFailure", "socket hang up"⟩) =
      (createResponse 400 (errorBody (messageOr ⟨"InternalFailure", "socket hang up"⟩
        "Failed to create dataset")), []) ∧
    updateDataset ⟨"PUT", "/data/{keyId}", some (some "k9"),
        .parsed (.obj [("payload", .str "x"),
          ("meta", .obj [("enc", .str "AES-GCM"), ("kdf", .str "PBKDF2-SHA256"),
            ("iterations", .num 100000), ("salt", .str "s"), ("iv", .str "i"),
            ("schemaVersion", .num 1)])])⟩
      [] "t1" (some ⟨"InternalFailure", "socket hang up"⟩) =
      (createResponse 400 (errorBody (messageOr ⟨"InternalFailure", "socket hang up"⟩
        "Failed to update dataset")), []) ∧
    deleteDataset ⟨"DELETE", "/data/{keyId}", some (some "k9"), .absent⟩
      [] (some ⟨"InternalFailure", "socket hang up"⟩) =
      (createResponse 500 (errorBody "Failed to delete dataset"), []) ∧
    handler ⟨"POST", "/data", none,
        .parsed (.obj [("payload", .str "x"),
          ("meta", .obj [("enc", .str "AES-GCM"), ("kdf", .str "PBKDF2-SHA256"),
            ("iterations", .num 100000), ("salt", .str "s"), ("iv", .str "i"),
            ("schemaVersion", .num 1)])])⟩
      [] "k1" "t1" (some ⟨"InternalFailure", "socket hang up"⟩) =
      (response 500 (errorBody "Internal Server Error"), []) :=
  backend_error_mapping "k9" "k1" "t1"
    (.obj [("payload", .str "x"),
      ("meta", .obj [("enc", .str "AES-GCM"), ("kdf", .str "PBKDF2-SHA256"),
        ("iterations", .num 100000), ("salt", .str "s"), ("iv", .str "i"),
        ("schemaVersion", .num 1)])])
    [] ⟨"InternalFailure", "socket hang up"⟩ (by decide) (by decide) rfl rfl

/-- Claim C5: a create whose `payload` field is absent or the empty
string returns HTTP 400 and performs no backend write (the store is
returned unchanged, whatever the backend fault), in both variants; an
entirely absent body behaves the same way. -/
theorem create_empty_or_absent_payload_400_no_write
    (fields : List (String × Json)) (s : Store) (keyId now : String)
    (fault : Option JsError)
    (hp : lookupField fields "payload" = none ∨
      lookupField fields "payload" = some (.str "")) :
    createData ⟨"POST", "/data", none, .parsed (.obj fields)⟩ s keyId now fault =
      .ok (response 400 (errorBody "payload is required"), s) ∧
    createDataset ⟨"POST", "/data", none, .parsed (.obj fields)⟩ s keyId now fault =
      (createResponse 400 (errorBody "payload is required and must be a string"), s) ∧
    createData ⟨"POST", "/data", none, .absent⟩ s keyId now fault =
      .ok (response 400 (errorBody "payload is required"), s) ∧
    (∃ m, createDataset ⟨"POST", "/data", none, .absent⟩ s keyId now fault =
      (createResponse 400 (errorBody m), s)) := by
  refine ⟨?_, ?_, ?_, ?_⟩
  · rcases hp with h | h <;>
      simp [createData, jsonParseV2, jsMember, Json.get, h, jsTruthy, Json.truthy,
        catchCCF, Except.instMonad, Except.bind, Except.pure]
  · rcases hp with h | h <;>
      simp [createDataset, jsonParseV1, jsMember, Json.get, h, validatePayload,
        jsTruthy, Json.truthy, jsIsString, catchV1, messageOr, Except.instMonad,
        Except.bind, Except.pure]
  · simp [createData, jsonParseV2, jsMember, Json.get, jsTruthy, lookupField,
      catchCCF, Except.instMonad, Except.bind, Except.pure]
  · exact ⟨"Cannot destructure property payload of null",
      by simp [createDataset, jsonParseV1, jsMember, catchV1, messageOr,
        Except.instMonad, Except.bind, Except.pure]⟩

/-- Concrete instance of C5 at an empty-string payload and at an absent
body. -/
theorem create_empty_or_absent_payload_witness :
    createData ⟨"POST", "/data", none, .parsed (.obj [("payload", .str "")])⟩
        [] "k1" "t1" none =
      .ok (response 400 (errorBody "payload is required"), []) ∧
    createDataset ⟨"POST", "/data", none, .parsed (.obj [("payload", .str "")])⟩
        [] "k1" "t1" none =
      (createResponse 400 (errorBody "payload is required and must be a string"), []) ∧
    createData ⟨"POST", "/data", none, .absent⟩ [] "k1" "t1" none =
      .ok (response 400 (errorBody "payload is required"), []) ∧
    (∃ m, createDataset ⟨"POST", "/data", none, .absent⟩ [] "k1" "t1" none =
      (createResponse 400 (errorBody m), [])) :=
  create_empty_or_absent_payload_400_no_write [("payload", .str "")] [] "k1" "t1"
    none (Or.inr rfl)

/-- Counterexample to claim C6 as stated: in the strict variant,
`createDataset` rejects a create with a valid `payload` and no `meta`
with HTTP 400, so the absence of `meta` can be a validation error. -/
theorem createDataset_rejects_missing_meta :
    createDataset ⟨"POST", "/data", none, .parsed (.obj [("payload", .str "hello")])⟩
        [] "k1" "t1" none =
      (createResponse 400 (errorBody "meta is required and must be an object"), []) ∧
    (400 : Nat) ≠ 201 := ⟨rfl, by decide⟩

/-- Claim C6 (amended): in the lax variant, a create with a valid
`payload` and no `meta` field succeeds and `meta` is stored and read back
as `null`; in the strict variant the same request is a validation error
returning HTTP 400 with a message naming `meta`. -/
theorem meta_optional_lax_required_strict
    (s : Store) (keyId now p : String) (fields : List (String × Json))
    (hk : keyId ≠ "") (hp : p ≠ "")
    (hfresh : Store.find s keyId = none)
    (hpayload : lookupField fields "payload" = some (.str p))
    (hmeta : lookupField fields "meta" = none) :
    (∃ s2, createData ⟨"POST", "/data", none, .parsed (.obj fields)⟩ s keyId now none =
        .ok (response 201 (.obj [("keyId", .str keyId), ("version", .num 1),
          ("updatedAt", .str now)]), s2) ∧
      Store.find s2 keyId = some ⟨1, .str p, .null, now⟩ ∧
      getData ⟨"GET", "/data/{keyId}", some (some keyId), .absent⟩ s2 none =
        .ok (response 200 (.obj [("keyId", .str keyId), ("version", .num 1),
          ("payload", .str p), ("meta", .null), ("updatedAt", .str now)]), s2)) ∧
    createDataset ⟨"POST", "/data", none, .parsed (.obj fields)⟩ s keyId now none =
      (createResponse 400 (errorBody "meta is required and must be an object"), s) := by
  constructor
  · refine ⟨(keyId, ⟨1, .str p, .null, now⟩) :: s, ?_, ?_, ?_⟩
    · simp [createData, jsonParseV2, jsMember, Json.get, hpayload, hmeta, jsTruthy,
        Json.truthy, hp, dbSend, condPut, hfresh, catchCCF, Except.instMonad,
        Except.bind, Except.pure]
    · simp [Store.find]
    · simp [getData, Event.keyIdOpt, strTruthy, hk, dbSend, Store.find,
        Except.instMonad, Except.bind, Except.pure]
  · simp [createDataset, jsonParseV1, jsMember, Json.get, hpayload, hmeta,
      validatePayload, jsTruthy, Json.truthy, hp, jsIsString, jsIsObjectTypeof,
      catchV1, messageOr, Except.instMonad, Except.bind, Except.pure]

/-- Concrete instance of amended C6 at a "hi" payload. -/
theorem meta_optional_lax_required_strict_witness :
    (∃ s2, createData ⟨"POST", "/data", none, .parsed (.obj [("payload", .str "hi")])⟩
        [] "k1" "t1" none =
        .ok (response 201 (.obj [("keyId", .str "k1"), ("version", .num 1),
          ("updatedAt", .str "t1")]), s2) ∧
      Store.find s2 "k1" = some ⟨1, .str "hi", .null, "t1"⟩ ∧
      getData ⟨"GET", "/data/{keyId}", some (some "k1"), .absent⟩ s2 none =
        .ok (response 200 (.obj [("keyId", .str "k1"), ("version", .num 1),
          ("payload", .str "hi"), ("meta", .null), ("updatedAt", .str "t1")]), s2)) ∧
    createDataset ⟨"POST", "/data", none, .parsed (.obj [("payload", .str "hi")])⟩
        [] "k1" "t1" none =
      (createResponse 400 (errorBody "meta is required and must be an object"), []) :=
  meta_optional_lax_required_strict [] "k1" "t1" "hi" [("payload", .str "hi")]
    (by decide) (by decide) rfl rfl rfl

/-- Concrete instance of the C1 round trip at a "hello" payload with
`meta` omitted. -/
theorem create_then_read_roundtrip_witness :
    ∃ s2,
      createData ⟨"POST", "/data", none, .parsed (.obj [("payload", .str "hello")])⟩
          [] "k1" "t1" none =
        .ok (response 201 (.obj [("keyId", .str "k1"), ("version", .num 1),
          ("updatedAt", .str "t1")]), s2) ∧
      getData ⟨"GET", "/data/{keyId}", some (some "k1"), .absent⟩ s2 none =
        .ok (response 200 (.obj [("keyId", .str "k1"), ("version", .num 1),
          ("payload", .str "hello"),
          ("meta", (lookupField [("payload", Json.str "hello")] "meta").getD .null),
          ("updatedAt", .str "t1")]), s2) :=
  create_then_read_roundtrip [] "k1" "t1" "hello" [("payload", .str "hello")]
    (by decide) (by decide) rfl rfl (Or.inl rfl)

/-- Counterexample to claim C7 as stated: a `meta` whose `schemaVersion`
is the number 0 — with every other clause satisfied — is rejected by the
strict validation (0 is falsy), though the claim says any number is
accepted. -/
theorem schemaVersion_zero_rejected :
    validatePayload (some (.str "x"))
      (some (.obj [("enc", .str "AES-GCM"), ("kdf", .str "PBKDF2-SHA256"),
        ("iterations", .num 100000), ("salt", .str "s"), ("iv", .str "i"),
        ("schemaVersion", .num 0)])) =
      .error ⟨"Error", "meta.schemaVersion is required and must be a number"⟩ ∧
    validatePayload (some (.str "x"))
      (some (.obj [("enc", .str "AES-GCM"), ("kdf", .str "PBKDF2-SHA256"),
        ("iterations", .num 100000), ("salt", .str "s"), ("iv", .str "i"),
        ("schemaVersion", .num 0)])) ≠ .ok () :=
  ⟨rfl, fun h => Except.noConfusion h⟩

/-- Concrete instance of amended C7: a fully valid `meta` is accepted,
and a wrong `kdf` is rejected with the message naming `meta.kdf`. -/
theorem strict_meta_validation_witness :
    validatePayload (some (.str "x"))
      (some (.obj [("enc", .str "AES-GCM"), ("kdf", .str "PBKDF2-SHA256"),
        ("iterations", .num 100000), ("salt", .str "s"), ("iv", .str "i"),
        ("schemaVersion", .num 3)])) = .ok () ∧
    validatePayload (some (.str "x"))
      (some (.obj [("enc", .str "AES-GCM"), ("kdf", .str "wrong"),
        ("iterations", .num 100000), ("salt", .str "s"), ("iv", .str "i"),
        ("schemaVersion", .num 3)])) =
      .error ⟨"Error", "meta.kdf must be \"PBKDF2-SHA256\""⟩ :=
  ⟨(strict_meta_validation_characterization "x"
      [("enc", .str "AES-GCM"), ("kdf", .str "PBKDF2-SHA256"),
       ("iterations", .num 100000), ("salt", .str "s"), ("iv", .str "i"),
       ("schemaVersion", .num 3)] (by decide)).1.mpr
    ⟨rfl, rfl, ⟨100000, rfl, by decide⟩, ⟨"s", rfl, by decide⟩,
     ⟨"i", rfl, by decide⟩, ⟨3, rfl, by decide⟩⟩,
   (strict_meta_validation_characterization "x"
      [("enc", .str "AES-GCM"), ("kdf", .str "wrong"),
       ("iterations", .num 100000), ("salt", .str "s"), ("iv", .str "i"),
       ("schemaVersion", .num 3)] (by decide)).2.2.1 rfl
    (by intro h; exact absurd h (by simp [lookupField]))⟩

/-- Claim C8: for every non-OPTIONS request the variant 2 router
dispatches by the `(httpMethod, resource)` pair to the matching
subhandler, the four routed pairs are pairwise distinct (so at most one
matches), and an unmatched pair returns HTTP 400 with an error body; the
variant 1 router returns HTTP 405 with an error body for unknown
methods. -/
theorem router_dispatch (ev : Event) (s : Store) (k n : String)
    (f : Option JsError) (hop : ev.httpMethod ≠ "OPTIONS") :
    (ev.httpMethod = "POST" ∧ ev.resource = "/data" →
      handler ev s k n f = catchAll500 (createData ev s k n f) s) ∧
    (ev.httpMethod = "GET" ∧ ev.resource = "/data/{keyId}" →
      handler ev s k n f = catchAll500 (getData ev s f) s) ∧
    (ev.httpMethod = "PUT" ∧ ev.resource = "/data/{keyId}" →
      handler ev s k n f = catchAll500 (updateData ev s n f) s) ∧
    (ev.httpMethod = "DELETE" ∧ ev.resource = "/data/{keyId}" →
      handler ev s k n f = catchAll500 (deleteData ev s f) s) ∧
    ((ev.httpMethod, ev.resource) ∉ routeTable →
      handler ev s k n f = (response 400 (errorBody "Unsupported method or path"), s)) ∧
    List.Pairwise (fun a b => a ≠ b) routeTable ∧
    (ev.httpMethod ∉ ["OPTIONS", "POST", "GET", "PUT", "DELETE"] →
      mainHandler ev s k n f =
        (createResponse 405 (errorBody ("Method " ++ ev.httpMethod ++ " not allowed")), s)) := by
  obtain ⟨m, res, pp, bd⟩ := ev
  simp only [] at hop
  refine ⟨?_, ?_, ?_, ?_, ?_, ?_, ?_⟩
  · rintro ⟨hm, hr⟩
    subst hm; subst hr
    simp [handler]
  · rintro ⟨hm, hr⟩
    subst hm; subst hr
    simp [handler]
  · rintro ⟨hm, hr⟩
    subst hm; subst hr
    simp [handler]
  · rintro ⟨hm, hr⟩
    subst hm; subst hr
    simp [handler]
  · intro hnot
    simp only [routeTable, List.mem_cons, List.not_mem_nil, or_false,
      Prod.mk.injEq, not_or] at hnot
    obtain ⟨hn1, hn2, hn3, hn4⟩ := hnot
    unfold handler
    rw [if_neg (fun hc => hop hc.1), if_neg (fun hc => hop hc.1),
      if_neg hn1, if_neg hn2, if_neg hn3, if_neg hn4]
    rfl
  · decide
  · intro hnm
    simp only [List.mem_cons, List.not_mem_nil, or_false, not_or] at hnm
    obtain ⟨o1, o2, o3, o4, o5⟩ := hnm
    unfold mainHandler
    rw [if_neg o1, if_neg o2, if_neg o3, if_neg o4, if_neg o5]

/-- Concrete instances of C8: a POST to /data dispatches to the create
subhandler, and PATCH is unmatched in both variants. -/
theorem router_dispatch_witness :
    handler ⟨"POST", "/data", none, .absent⟩ [] "k1" "t1" none =
      catchAll500 (createData ⟨"POST", "/data", none, .absent⟩ [] "k1" "t1" none) [] ∧
    handler ⟨"PATCH", "/data", none, .absent⟩ [] "k1" "t1" none =
      (response 400 (errorBody "Unsupported method or path"), []) ∧
    mainHandler ⟨"PATCH", "/data", none, .absent⟩ [] "k1" "t1" none =
      (createResponse 405 (errorBody "Method PATCH not allowed"), []) :=
  ⟨(router_dispatch ⟨"POST", "/data", none, .absent⟩ [] "k1" "t1" none
      (by decide)).1 ⟨rfl, rfl⟩,
   (router_dispatch ⟨"PATCH", "/data", none, .absent⟩ [] "k1" "t1" none
      (by decide)).2.2.2.2.1 (by decide),
   (router_dispatch ⟨"PATCH", "/data", none, .absent⟩ [] "k1" "t1" none
      (by decide)).2.2.2.2.2.2 (by decide)⟩

/-- Claim C9: every response either top-level handler produces — success
or error, OPTIONS preflight and unmatched routes included — carries
exactly the fixed header set (Content-Type: application/json and the
three CORS headers with their fixed values), and its body is a JSON
object. -/
theorem responses_carry_cors_headers (ev : Event) (s : Store) (k n : String)
    (f : Option JsError) :
    (mainHandler ev s k n f).1.headers = CORS_HEADERS ∧
    (∃ fs, (mainHandler ev s k n f).1.body = .obj fs) ∧
    (handler ev s k n f).1.headers = CORS_HEADERS ∧
    (∃ fs, (handler ev s k n f).1.body = .obj fs) ∧
    CORS_HEADERS = [("Access-Control-Allow-Origin", "*"),
      ("Access-Control-Allow-Headers",
        "Content-Type,X-Amz-Date,Authorization,X-Api-Key,X-Amz-Security-Token"),
      ("Access-Control-Allow-Methods", "GET,POST,PUT,DELETE,OPTIONS"),
      ("Content-Type", "application/json")] := by
  obtain ⟨h1, h2, _⟩ := mainHandler_good ev s k n f
  obtain ⟨h3, h4, _⟩ := handler_good ev s k n f
  exact ⟨h1, h2, h3, h4, rfl⟩

/-- Claim C10: for every input event, store, and backend fault the
variant 1 dispatcher returns a response (it is a total function in this
model), with a status code in {200, 201, 400, 404, 405, 409, 500} and a
body that serializes a JSON object. -/
theorem dispatcher_total_status_codes (ev : Event) (s : Store) (k n : String)
    (f : Option JsError) :
    (mainHandler ev s k n f).1.statusCode ∈
      ([200, 201, 400, 404, 405, 409, 500] : List Nat) ∧
    (∃ fs, (mainHandler ev s k n f).1.body = .obj fs) := by
  obtain ⟨_, h2, h3⟩ := mainHandler_good ev s k n f
  exact ⟨h3, h2⟩
